import Mathlib

/-!
Verification of the GPU memory-usage monitor (sampling-and-persistence core).

The development embeds, in Lean, the data model (DeviceReading / Snapshot /
Series), the tolerant per-field parsing of raw telemetry records, the
JSON-document Series Store with its atomic-rewrite persistence policy, the
fixed-cadence sampling loop, and the bootstrap shell script
`start_monitoring.sh`.  The shell script is embedded from its source; the
Python monitoring core is not present in the repository snapshot, so those
definitions are modelled from the specification, as marked in doc comments.
-/

namespace GpuMon

/-- One accelerator's telemetry at one Snapshot, with the persisted field
names of the JSON document (`gpu_id`, `fan_percentage`, `temperature_c`,
`power_usage_w`, `power_cap_w`, `memory_used_mib`, `memory_total_mib`,
`utilization_percentage`). -/
structure DeviceReading where
  gpu_id : Int
  fan_percentage : Int
  temperature_c : Int
  power_usage_w : Int
  power_cap_w : Int
  memory_used_mib : Int
  memory_total_mib : Int
  utilization_percentage : Int
deriving DecidableEq, Repr

/-- One observation event: a timestamp and one DeviceReading per device. -/
structure Snapshot where
  timestamp : String
  gpus : List DeviceReading
deriving DecidableEq, Repr

/-- The persisted document: the ordered sequence of Snapshots. -/
abbrev Series := List Snapshot

/-- Modelled from the spec: the defined "unknown" placeholder substituted
when a telemetry field is missing or cannot be parsed as an integer
(a value distinguishable from every real reading). -/
def sentinel : Int := -1

/-- Modelled from the spec: a raw per-device text record is a fixed textual
layout keyed by field name; lookup of one field's raw text by its key. -/
def lookupField : List (String × String) → String → Option String
  | [], _ => none
  | (k, v) :: rest, key => if k = key then some v else lookupField rest key

/-- Parse a run of decimal digits, accumulating their value; any
non-digit character fails the whole parse. -/
def parseDigits : List Char → Nat → Option Nat
  | [], acc => some acc
  | c :: cs, acc =>
    if c.isDigit then parseDigits cs (acc * 10 + (c.toNat - 48)) else none

/-- Parse a field's raw text as a nonnegative decimal number; the empty
text or any non-digit character yields no value. -/
def parseNum (s : String) : Option Nat :=
  match s.data with
  | [] => none
  | c :: cs => parseDigits (c :: cs) 0

/-- Modelled from the spec: extract one integer field independently from a
raw record; a missing or unparseable field yields the sentinel, never a
propagated failure. -/
def extractField (rec : List (String × String)) (key : String) : Int :=
  match lookupField rec key with
  | none => sentinel
  | some v =>
    match parseNum v with
    | none => sentinel
    | some n => (n : Int)

/-- Modelled from the spec: parse one device's raw record into a
DeviceReading; `idx` is the stable device index assigned by enumeration
order, and each of the seven telemetry fields is extracted independently. -/
def parseDevice (idx : Nat) (rec : List (String × String)) : DeviceReading :=
  { gpu_id := (idx : Int)
    fan_percentage := extractField rec "fan_percentage"
    temperature_c := extractField rec "temperature_c"
    power_usage_w := extractField rec "power_usage_w"
    power_cap_w := extractField rec "power_cap_w"
    memory_used_mib := extractField rec "memory_used_mib"
    memory_total_mib := extractField rec "memory_total_mib"
    utilization_percentage := extractField rec "utilization_percentage" }

/-- Modelled from the spec: parse the per-device records in output order,
assigning ascending device indices starting at `idx`. -/
def parseDevices : Nat → List (List (String × String)) → List DeviceReading
  | _, [] => []
  | idx, rec :: rest => parseDevice idx rec :: parseDevices (idx + 1) rest

/-- Modelled from the spec: build the Snapshot for one tick from the
current timestamp and the raw per-device records, device order preserved. -/
def parseSnapshot (ts : String) (recs : List (List (String × String))) : Snapshot :=
  { timestamp := ts, gpus := parseDevices 0 recs }

/-- JSON values, as needed for the persisted document shape. -/
inductive JVal where
  | int (n : Int)
  | str (s : String)
  | arr (xs : List JVal)
  | obj (kvs : List (String × JVal))

/-- Key lookup in a JSON object's field list. -/
def jLookup : List (String × JVal) → String → Option JVal
  | [], _ => none
  | (k, v) :: rest, key => if k = key then some v else jLookup rest key

/-- Modelled from the spec: serialize one DeviceReading to its JSON object. -/
def encodeDevice (d : DeviceReading) : JVal :=
  JVal.obj
    [("gpu_id", JVal.int d.gpu_id),
     ("fan_percentage", JVal.int d.fan_percentage),
     ("temperature_c", JVal.int d.temperature_c),
     ("power_usage_w", JVal.int d.power_usage_w),
     ("power_cap_w", JVal.int d.power_cap_w),
     ("memory_used_mib", JVal.int d.memory_used_mib),
     ("memory_total_mib", JVal.int d.memory_total_mib),
     ("utilization_percentage", JVal.int d.utilization_percentage)]

/-- Fetch an integer field of a JSON object, failing on absence or on a
non-integer value. -/
def getIntField (kvs : List (String × JVal)) (key : String) : Option Int :=
  match jLookup kvs key with
  | some (JVal.int n) => some n
  | _ => none

/-- Modelled from the spec: decode one DeviceReading from its JSON object. -/
def decodeDevice : JVal → Option DeviceReading
  | JVal.obj kvs => do
    let g ← getIntField kvs "gpu_id"
    let f ← getIntField kvs "fan_percentage"
    let t ← getIntField kvs "temperature_c"
    let pu ← getIntField kvs "power_usage_w"
    let pc ← getIntField kvs "power_cap_w"
    let mu ← getIntField kvs "memory_used_mib"
    let mt ← getIntField kvs "memory_total_mib"
    let u ← getIntField kvs "utilization_percentage"
    pure ⟨g, f, t, pu, pc, mu, mt, u⟩
  | _ => none

/-- Decode every element of a JSON array, failing if any element fails. -/
def decodeList {α : Type} (f : JVal → Option α) : List JVal → Option (List α)
  | [] => some []
  | j :: js => do
    let a ← f j
    let as ← decodeList f js
    pure (a :: as)

/-- Modelled from the spec: serialize one Snapshot to its JSON object. -/
def encodeSnapshot (s : Snapshot) : JVal :=
  JVal.obj
    [("timestamp", JVal.str s.timestamp),
     ("gpus", JVal.arr (s.gpus.map encodeDevice))]

/-- Modelled from the spec: decode one Snapshot from its JSON object. -/
def decodeSnapshot : JVal → Option Snapshot
  | JVal.obj kvs =>
    match jLookup kvs "timestamp", jLookup kvs "gpus" with
    | some (JVal.str ts), some (JVal.arr js) => do
      let gs ← decodeList decodeDevice js
      pure ⟨ts, gs⟩
    | _, _ => none
  | _ => none

/-- Modelled from the spec: serialize the whole Series under the mandatory
top-level `data` key. -/
def encodeSeries (S : Series) : JVal :=
  JVal.obj [("data", JVal.arr (S.map encodeSnapshot))]

/-- Modelled from the spec: decode the whole Series from the document. -/
def decodeSeries : JVal → Option Series
  | JVal.obj kvs =>
    match jLookup kvs "data" with
    | some (JVal.arr js) => decodeList decodeSnapshot js
    | _ => none
  | _ => none

/-- The observable state of the destination file: absent, present but
empty, present with unparseable text, or present with a JSON document. -/
inductive FileState where
  | missing
  | empty
  | corrupt
  | content (doc : JVal)

/-- Modelled from the spec: `load` returns an empty Series if the file
does not exist or is empty or corrupt (corruption is treated as if no
prior data existed, after a logged warning), else decodes the document,
treating an undecodable document as corrupt. -/
def load : FileState → Series
  | FileState.missing => []
  | FileState.empty => []
  | FileState.corrupt => []
  | FileState.content doc => (decodeSeries doc).getD []

/-- Modelled from the spec: persist the Series by serializing the entire
document to the destination file. -/
def store (S : Series) : FileState :=
  FileState.content (encodeSeries S)

/-- Modelled from the spec: append adds the snapshot at the end of the
in-memory Series. -/
def appendSnap (S : Series) (s : Snapshot) : Series := S ++ [s]

/-- The two files involved in an atomic rewrite: destination and temporary. -/
structure Disk where
  dest : FileState
  tmp : FileState

/-- Modelled from the spec: the sequence of observable disk states during
one append's rewrite, in order — before the temporary file exists, with the
temporary created but empty, with it partially written, with it fully
written and flushed, and after the atomic replace of the destination.  An
interruption at an arbitrary point leaves the disk in one of these states;
the destination changes only in the final atomic step. -/
def rewriteStates (old : FileState) (doc : JVal) : List Disk :=
  [⟨old, FileState.missing⟩,
   ⟨old, FileState.empty⟩,
   ⟨old, FileState.corrupt⟩,
   ⟨old, FileState.content doc⟩,
   ⟨FileState.content doc, FileState.missing⟩]

/-- Modelled from the spec: the sampling loop with a fake clock.  `I` is
the interval, `D` the duration (deadline, with start time 0), `proc k` the
processing latency of tick `k`, and `collect t` the collector's outcome at
time `t` (`none` = failed invocation, skipped tick).  Each iteration runs
while `now < D`, records the tick, then sleeps until the next boundary
`(k+1)*I` computed from the loop start — or continues immediately when
past due.  Fuel bounds the recursion. -/
def monitorAux (I D : Nat) (proc : Nat → Nat) (collect : Nat → Option Snapshot) :
    Nat → Nat → Nat → List (Nat × Option Snapshot)
  | 0, _, _ => []
  | fuel + 1, k, now =>
    if now < D then
      (now, collect now) ::
        monitorAux I D proc collect fuel (k + 1) (max (now + proc k) ((k + 1) * I))
    else []

/-- Modelled from the spec: run the loop from start time 0 with enough fuel
for the whole observation window. -/
def runMonitor (I D : Nat) (proc : Nat → Nat) (collect : Nat → Option Snapshot) :
    List (Nat × Option Snapshot) :=
  monitorAux I D proc collect (D + 1) 0 0

/-- Modelled from the spec: the Series accumulated by a run — the initial
loaded Series followed by one appended Snapshot per successful tick, in
tick order; failed ticks contribute nothing. -/
def resultSeries (log : List (Nat × Option Snapshot)) (init : Series) : Series :=
  init ++ log.filterMap (fun p => p.2)

/-- The environment the bootstrap script probes: availability of the
`nvidia-smi` collector tool and of `python3`. -/
structure SysEnv where
  nvidia_smi_available : Bool
  python3_available : Bool

/-- The state-changing actions `start_monitoring.sh` can perform, in
script order. -/
inductive Action where
  | pip_install
  | chmod_gpu_monitor
  | chmod_visualize
  | launch_monitor
deriving DecidableEq, Repr

/-- Embedding of `start_monitoring.sh`: check `nvidia-smi`, exiting 1 if
absent; check `python3`, exiting 1 if absent; then install dependencies,
make both Python scripts executable, and launch the monitor (in either
background or foreground mode).  Returns the exit code of the checks and
the ordered trace of state-changing actions performed. -/
def start_monitoring (env : SysEnv) : Nat × List Action :=
  if env.nvidia_smi_available = false then (1, [])
  else if env.python3_available = false then (1, [])
  else
    (0, [Action.pip_install, Action.chmod_gpu_monitor,
         Action.chmod_visualize, Action.launch_monitor])

/-! Helper lemmas for the Series Store. -/

/-- Decoding the serialization of one DeviceReading recovers it. -/
theorem decodeDevice_encodeDevice (d : DeviceReading) :
    decodeDevice (encodeDevice d) = some d := rfl

/-- Decoding a list of serializations recovers the list, given a
round-tripping element codec. -/
theorem decodeList_map {α : Type} (f : JVal → Option α) (g : α → JVal)
    (h : ∀ a, f (g a) = some a) :
    ∀ l : List α, decodeList f (l.map g) = some l := by
  intro l
  induction l with
  | nil => rfl
  | cons a as ih => simp [decodeList, h, ih]

/-- Decoding the serialization of one Snapshot recovers it. -/
theorem decodeSnapshot_encodeSnapshot (s : Snapshot) :
    decodeSnapshot (encodeSnapshot s) = some s := by
  show decodeList decodeDevice (s.gpus.map encodeDevice) >>= _ = _
  rw [decodeList_map decodeDevice encodeDevice decodeDevice_encodeDevice]
  rfl

/-- Decoding the serialized Series document recovers the Series. -/
theorem decodeSeries_encodeSeries (S : Series) :
    decodeSeries (encodeSeries S) = some S := by
  show decodeList decodeSnapshot (S.map encodeSnapshot) = some S
  exact decodeList_map decodeSnapshot encodeSnapshot decodeSnapshot_encodeSnapshot S

/-- Loading a stored Series recovers it. -/
theorem load_store (S : Series) : load (store S) = S := by
  simp [load, store, decodeSeries_encodeSeries]

/-! Claim theorems for the Series Store. -/

/-- C2: for every Series `S` and Snapshot `s`, `append(S, s)` produces a
Series of length `len(S)+1` whose last element equals `s`, and every
element of `S` is present unchanged, in the same relative order, as the
prefix of the result. -/
theorem append_monotonicity (S : Series) (s : Snapshot) :
    (appendSnap S s).length = S.length + 1 ∧
    (appendSnap S s).getLast? = some s ∧
    (appendSnap S s).take S.length = S := by
  refine ⟨by simp [appendSnap], ?_, ?_⟩
  · exact List.getLast?_concat S
  · exact List.take_left S [s]

/-- C3: serializing any Series to the persisted JSON document and loading
that document back yields the same Series, field for field, for any number
of Snapshots. -/
theorem load_store_roundtrip (S : Series) : load (store S) = S :=
  load_store S

/-- C7: `load` returns an empty Series, without failing, whenever the file
is missing, empty, or holds corrupt or undecodable content — a corrupt
existing document is treated exactly as if no prior data existed. -/
theorem load_fault_tolerance (f : FileState)
    (h : f = FileState.missing ∨ f = FileState.empty ∨ f = FileState.corrupt ∨
      ∃ doc, f = FileState.content doc ∧ decodeSeries doc = none) :
    load f = [] := by
  rcases h with h | h | h | ⟨doc, hf, hd⟩
  · rw [h]; rfl
  · rw [h]; rfl
  · rw [h]; rfl
  · rw [hf]; simp [load, hd]

/-- Witness for C7 at every concrete kind of bad file, including a
well-formed JSON value that is not a Series document. -/
theorem load_fault_tolerance_witness :
    load FileState.missing = [] ∧ load FileState.empty = [] ∧
    load FileState.corrupt = [] ∧ load (FileState.content (JVal.int 3)) = [] := by
  refine ⟨?_, ?_, ?_, ?_⟩
  · exact load_fault_tolerance FileState.missing (Or.inl rfl)
  · exact load_fault_tolerance FileState.empty (Or.inr (Or.inl rfl))
  · exact load_fault_tolerance FileState.corrupt (Or.inr (Or.inr (Or.inl rfl)))
  · exact load_fault_tolerance (FileState.content (JVal.int 3))
      (Or.inr (Or.inr (Or.inr ⟨JVal.int 3, rfl, rfl⟩)))

/-- C1: if an append's rewrite is interrupted at any of its observable
intermediate points, the destination file still loads as either the exact
pre-append Series or the exact fully post-append Series — never a
truncated or partial document.  The destination is only changed by the
final atomic replace. -/
theorem crash_safety_rewrite (S : Series) (s : Snapshot) (d : Disk)
    (h : d ∈ rewriteStates (store S) (encodeSeries (appendSnap S s))) :
    load d.dest = S ∨ load d.dest = appendSnap S s := by
  simp only [rewriteStates, List.mem_cons, List.not_mem_nil, or_false] at h
  rcases h with h | h | h | h | h <;> subst h
  · exact Or.inl (load_store S)
  · exact Or.inl (load_store S)
  · exact Or.inl (load_store S)
  · exact Or.inl (load_store S)
  · exact Or.inr (load_store (appendSnap S s))

/-- Witness for C1: interruption right after the atomic replace, on an
initially empty Series, loads the post-append Series. -/
theorem crash_safety_rewrite_witness :
    load (Disk.mk (FileState.content (encodeSeries (appendSnap [] ⟨"2025-03-01 04:18:24", []⟩)))
        FileState.missing).dest = ([] : Series) ∨
    load (Disk.mk (FileState.content (encodeSeries (appendSnap [] ⟨"2025-03-01 04:18:24", []⟩)))
        FileState.missing).dest = appendSnap [] ⟨"2025-03-01 04:18:24", []⟩ :=
  crash_safety_rewrite [] ⟨"2025-03-01 04:18:24", []⟩ _ (by simp [rewriteStates])

/-! Helper lemmas for the sampling loop. -/

/-- Tick `k` still fits in the observation window exactly when `k` is below
the ceiling `(D + I - 1) / I` of `D / I`. -/
theorem tick_lt_iff {I : Nat} (hI : 0 < I) (k D : Nat) :
    k * I < D ↔ k < (D + I - 1) / I := by
  have h : k + 1 ≤ (D + I - 1) / I ↔ (k + 1) * I ≤ D + I - 1 :=
    Nat.le_div_iff_mul_le hI
  have hm : (k + 1) * I = k * I + I := by ring
  omega

/-- With per-tick processing latency bounded by the interval, tick `k` of
the loop runs exactly at time `k * I`, and the loop's log is the log of
all scheduled ticks before the deadline. -/
theorem monitorAux_eq (I D : Nat) (proc : Nat → Nat) (collect : Nat → Option Snapshot)
    (hI : 0 < I) (hp : ∀ k, proc k ≤ I) :
    ∀ fuel k, (D + I - 1) / I ≤ k + fuel →
      monitorAux I D proc collect fuel k (k * I) =
        (List.range' k ((D + I - 1) / I - k)).map (fun m => (m * I, collect (m * I))) := by
  intro fuel
  induction fuel with
  | zero =>
    intro k hk
    have hz : (D + I - 1) / I - k = 0 := by omega
    rw [hz]
    rfl
  | succ fuel ih =>
    intro k hk
    by_cases h : k * I < D
    · have hkc : k < (D + I - 1) / I := (tick_lt_iff hI k D).mp h
      have hm : (k + 1) * I = k * I + I := by ring
      have hmax : max (k * I + proc k) ((k + 1) * I) = (k + 1) * I :=
        Nat.max_eq_right (by have := hp k; omega)
      have hsub : (D + I - 1) / I - k = ((D + I - 1) / I - (k + 1)) + 1 := by omega
      rw [hsub, List.range'_succ, List.map_cons]
      simp only [monitorAux, if_pos h, hmax]
      exact congrArg (List.cons (k * I, collect (k * I))) (ih (k + 1) (by omega))
    · have h2 : ¬ k < (D + I - 1) / I := fun hc => h ((tick_lt_iff hI k D).mpr hc)
      have hz : (D + I - 1) / I - k = 0 := by omega
      rw [hz]
      simp only [monitorAux, if_neg h]
      rfl

/-- The tick count of a window of duration `D` is at most the fuel budget. -/
theorem ceil_div_le (I D : Nat) (hI : 0 < I) : (D + I - 1) / I ≤ D + 1 := by
  calc (D + I - 1) / I ≤ (D + I) / I := Nat.div_le_div_right (by omega)
    _ = D / I + 1 := Nat.add_div_right D hI
    _ ≤ D + 1 := by have := Nat.div_le_self D I; omega

/-- With processing latency bounded by the interval, a run's log is one
entry per scheduled tick `k * I` below the deadline, in schedule order. -/
theorem runMonitor_eq (I D : Nat) (proc : Nat → Nat) (collect : Nat → Option Snapshot)
    (hI : 0 < I) (hp : ∀ k, proc k ≤ I) :
    runMonitor I D proc collect =
      (List.range' 0 ((D + I - 1) / I)).map (fun m => (m * I, collect (m * I))) := by
  have h := monitorAux_eq I D proc collect hI hp (D + 1) 0
    (by simpa using ceil_div_le I D hI)
  simpa [runMonitor] using h

/-- A log of all-successful ticks contributes one Snapshot per entry. -/
theorem filterMap_snd_length (l : List (Nat × Option Snapshot))
    (h : ∀ p ∈ l, p.2 ≠ none) :
    (l.filterMap (fun p => p.2)).length = l.length := by
  induction l with
  | nil => rfl
  | cons a as ih =>
    have ha := h a (List.mem_cons_self a as)
    cases ha2 : a.2 with
    | none => exact absurd ha2 ha
    | some s =>
      simp [List.filterMap_cons, ha2,
        ih (fun p hp => h p (List.mem_cons_of_mem a hp))]

/-- The ceiling of the division `D / I` lies within one of its floor. -/
theorem ceil_div_bounds (I D : Nat) (hI : 0 < I) :
    D / I ≤ (D + I - 1) / I ∧ (D + I - 1) / I ≤ D / I + 1 := by
  constructor
  · exact Nat.div_le_div_right (by omega)
  · calc (D + I - 1) / I ≤ (D + I) / I := Nat.div_le_div_right (by omega)
      _ = D / I + 1 := Nat.add_div_right D hI

/-- The schedule of tick times does not depend on the collector's
outcomes: failed invocations never change the loop's timing or stop it. -/
theorem monitorAux_fst_independent (I D : Nat) (proc : Nat → Nat)
    (c1 c2 : Nat → Option Snapshot) :
    ∀ fuel k now, (monitorAux I D proc c1 fuel k now).map Prod.fst =
      (monitorAux I D proc c2 fuel k now).map Prod.fst := by
  intro fuel
  induction fuel with
  | zero => intro k now; rfl
  | succ fuel ih =>
    intro k now
    by_cases h : now < D
    · simp only [monitorAux, if_pos h, List.map_cons]
      exact congrArg (List.cons now) (ih (k + 1) (max (now + proc k) ((k + 1) * I)))
    · simp only [monitorAux, if_neg h]

/-! Claim theorems for the sampling loop. -/

/-- C4: over a run of duration `D` with interval `I`, with each tick's
processing latency within one interval, the ticks run exactly at the
drift-free boundaries `k * I` computed from the loop start, and with an
always-successful collector the number of Snapshots produced lies within
one tick of `floor(D/I) + 1` (it is between `D/I` and `D/I + 1`). -/
theorem schedule_drift_bound (I D : Nat) (proc : Nat → Nat)
    (collect : Nat → Option Snapshot) (hI : 0 < I)
    (hproc : ∀ k, proc k ≤ I) (hcollect : ∀ t, collect t ≠ none) :
    (runMonitor I D proc collect).map Prod.fst =
      (List.range' 0 ((D + I - 1) / I)).map (fun m => m * I) ∧
    D / I ≤ (resultSeries (runMonitor I D proc collect) []).length ∧
    (resultSeries (runMonitor I D proc collect) []).length ≤ D / I + 1 := by
  have hrun := runMonitor_eq I D proc collect hI hproc
  have hlen : (resultSeries (runMonitor I D proc collect) []).length =
      (D + I - 1) / I := by
    rw [resultSeries, List.nil_append, hrun, filterMap_snd_length]
    · simp
    · intro p hp
      simp only [List.mem_map] at hp
      obtain ⟨m, _, hm⟩ := hp
      rw [← hm]
      exact hcollect (m * I)
  refine ⟨?_, ?_, ?_⟩
  · rw [hrun]
    simp [List.map_map, Function.comp]
  · rw [hlen]
    exact (ceil_div_bounds I D hI).1
  · rw [hlen]
    exact (ceil_div_bounds I D hI).2

/-- Witness for C4: interval 2, duration 5, zero latency, all ticks
successful — ticks at 0, 2, 4 and three Snapshots, between 5/2 = 2 and
5/2 + 1 = 3. -/
theorem schedule_drift_bound_witness :
    (runMonitor 2 5 (fun _ => 0) (fun _ => some ⟨"t", []⟩)).map Prod.fst =
      (List.range' 0 ((5 + 2 - 1) / 2)).map (fun m => m * 2) ∧
    5 / 2 ≤ (resultSeries (runMonitor 2 5 (fun _ => 0) (fun _ => some ⟨"t", []⟩)) []).length ∧
    (resultSeries (runMonitor 2 5 (fun _ => 0) (fun _ => some ⟨"t", []⟩)) []).length ≤ 5 / 2 + 1 :=
  schedule_drift_bound 2 5 (fun _ => 0) (fun _ => some ⟨"t", []⟩)
    (by omega) (fun _ => Nat.zero_le 2) (fun _ => Option.some_ne_none _)

/-- C5: in any run of exactly 5 scheduled ticks where only tick 3's
collector invocation fails, the loop runs all 5 ticks to the deadline
(it does not terminate early) and the resulting Series holds exactly 4
Snapshots, one for each of ticks 1, 2, 4 and 5, none for tick 3. -/
theorem tick_resilience (I D : Nat) (collect : Nat → Option Snapshot)
    (s1 s2 s4 s5 : Snapshot) (hI : 0 < I) (hlo : 4 * I < D) (hhi : D ≤ 5 * I)
    (h1 : collect 0 = some s1) (h2 : collect I = some s2)
    (h3 : collect (2 * I) = none) (h4 : collect (3 * I) = some s4)
    (h5 : collect (4 * I) = some s5) :
    runMonitor I D (fun _ => 0) collect =
      [(0, some s1), (I, some s2), (2 * I, none), (3 * I, some s4), (4 * I, some s5)] ∧
    resultSeries (runMonitor I D (fun _ => 0) collect) [] = [s1, s2, s4, s5] := by
  have hc : (D + I - 1) / I = 5 := Nat.div_eq_of_lt_le (by omega) (by omega)
  have hlog : runMonitor I D (fun _ => 0) collect =
      [(0, some s1), (I, some s2), (2 * I, none), (3 * I, some s4), (4 * I, some s5)] := by
    have hrun := runMonitor_eq I D (fun _ => 0) collect hI (fun _ => Nat.zero_le I)
    rw [hc] at hrun
    have hr5 : List.range' 0 5 = [0, 1, 2, 3, 4] := rfl
    rw [hr5] at hrun
    simpa [Nat.zero_mul, Nat.one_mul, h1, h2, h3, h4, h5] using hrun
  refine ⟨hlog, ?_⟩
  rw [resultSeries, hlog]
  rfl

/-- Witness for C5 at interval 10, duration 50, the collector failing only
at the third tick's time 20. -/
theorem tick_resilience_witness :
    runMonitor 10 50 (fun _ => 0)
        (fun t => if t = 20 then none else some ⟨"s", []⟩) =
      [(0, some ⟨"s", []⟩), (10, some ⟨"s", []⟩), (2 * 10, none),
       (3 * 10, some ⟨"s", []⟩), (4 * 10, some ⟨"s", []⟩)] ∧
    resultSeries (runMonitor 10 50 (fun _ => 0)
        (fun t => if t = 20 then none else some ⟨"s", []⟩)) [] =
      [⟨"s", []⟩, ⟨"s", []⟩, ⟨"s", []⟩, ⟨"s", []⟩] :=
  tick_resilience 10 50 (fun t => if t = 20 then none else some ⟨"s", []⟩)
    ⟨"s", []⟩ ⟨"s", []⟩ ⟨"s", []⟩ ⟨"s", []⟩
    (by omega) (by omega) (by omega) rfl rfl rfl rfl rfl

/-! Claim theorems for parsing, the memory invariant, and the bootstrap. -/

/-- C6: when one field of a raw per-device record (here `fan_percentage`)
is missing or cannot be parsed as a number, parsing still produces a
DeviceReading holding the sentinel for that field and the independently
extracted value of every other field — and any field whose raw text does
parse holds its real numeric value; the containing Snapshot is still
produced from the record and appended to the Series. -/
theorem field_sentinel (rec : List (String × String)) (ts : String)
    (S : Series) (idx : Nat)
    (h : lookupField rec "fan_percentage" = none ∨
      ∃ v, lookupField rec "fan_percentage" = some v ∧ parseNum v = none) :
    (parseDevice idx rec).fan_percentage = sentinel ∧
    (parseDevice idx rec).gpu_id = (idx : Int) ∧
    (parseDevice idx rec).temperature_c = extractField rec "temperature_c" ∧
    (parseDevice idx rec).power_usage_w = extractField rec "power_usage_w" ∧
    (parseDevice idx rec).power_cap_w = extractField rec "power_cap_w" ∧
    (parseDevice idx rec).memory_used_mib = extractField rec "memory_used_mib" ∧
    (parseDevice idx rec).memory_total_mib = extractField rec "memory_total_mib" ∧
    (parseDevice idx rec).utilization_percentage = extractField rec "utilization_percentage" ∧
    (∀ key v n, lookupField rec key = some v → parseNum v = some n →
      extractField rec key = (n : Int)) ∧
    (parseSnapshot ts [rec]).gpus = [parseDevice 0 rec] ∧
    appendSnap S (parseSnapshot ts [rec]) = S ++ [parseSnapshot ts [rec]] := by
  refine ⟨?_, rfl, rfl, rfl, rfl, rfl, rfl, rfl, ?_, rfl, rfl⟩
  · show extractField rec "fan_percentage" = sentinel
    rcases h with h | ⟨v, hv, hn⟩
    · simp [extractField, h]
    · simp [extractField, hv, hn]
  · intro key v n hv hn
    simp [extractField, hv, hn]

/-- Witness for C6: the README's example record with `fan_percentage`
absent; all remaining fields carry their real values and the Snapshot is
appended. -/
theorem field_sentinel_witness :
    (parseDevice 0 [("temperature_c", "21"), ("power_usage_w", "12"),
        ("power_cap_w", "230"), ("memory_used_mib", "207"),
        ("memory_total_mib", "24564"),
        ("utilization_percentage", "0")]).fan_percentage = sentinel ∧
    (parseDevice 0 [("temperature_c", "21"), ("power_usage_w", "12"),
        ("power_cap_w", "230"), ("memory_used_mib", "207"),
        ("memory_total_mib", "24564"),
        ("utilization_percentage", "0")]).gpu_id = ((0 : Nat) : Int) ∧
    (parseDevice 0 [("temperature_c", "21"), ("power_usage_w", "12"),
        ("power_cap_w", "230"), ("memory_used_mib", "207"),
        ("memory_total_mib", "24564"),
        ("utilization_percentage", "0")]).temperature_c =
      extractField [("temperature_c", "21"), ("power_usage_w", "12"),
        ("power_cap_w", "230"), ("memory_used_mib", "207"),
        ("memory_total_mib", "24564"),
        ("utilization_percentage", "0")] "temperature_c" ∧
    (parseDevice 0 [("temperature_c", "21"), ("power_usage_w", "12"),
        ("power_cap_w", "230"), ("memory_used_mib", "207"),
        ("memory_total_mib", "24564"),
        ("utilization_percentage", "0")]).power_usage_w =
      extractField [("temperature_c", "21"), ("power_usage_w", "12"),
        ("power_cap_w", "230"), ("memory_used_mib", "207"),
        ("memory_total_mib", "24564"),
        ("utilization_percentage", "0")] "power_usage_w" ∧
    (parseDevice 0 [("temperature_c", "21"), ("power_usage_w", "12"),
        ("power_cap_w", "230"), ("memory_used_mib", "207"),
        ("memory_total_mib", "24564"),
        ("utilization_percentage", "0")]).power_cap_w =
      extractField [("temperature_c", "21"), ("power_usage_w", "12"),
        ("power_cap_w", "230"), ("memory_used_mib", "207"),
        ("memory_total_mib", "24564"),
        ("utilization_percentage", "0")] "power_cap_w" ∧
    (parseDevice 0 [("temperature_c", "21"), ("power_usage_w", "12"),
        ("power_cap_w", "230"), ("memory_used_mib", "207"),
        ("memory_total_mib", "24564"),
        ("utilization_percentage", "0")]).memory_used_mib =
      extractField [("temperature_c", "21"), ("power_usage_w", "12"),
        ("power_cap_w", "230"), ("memory_used_mib", "207"),
        ("memory_total_mib", "24564"),
        ("utilization_percentage", "0")] "memory_used_mib" ∧
    (parseDevice 0 [("temperature_c", "21"), ("power_usage_w", "12"),
        ("power_cap_w", "230"), ("memory_used_mib", "207"),
        ("memory_total_mib", "24564"),
        ("utilization_percentage", "0")]).memory_total_mib =
      extractField [("temperature_c", "21"), ("power_usage_w", "12"),
        ("power_cap_w", "230"), ("memory_used_mib", "207"),
        ("memory_total_mib", "24564"),
        ("utilization_percentage", "0")] "memory_total_mib" ∧
    (parseDevice 0 [("temperature_c", "21"), ("power_usage_w", "12"),
        ("power_cap_w", "230"), ("memory_used_mib", "207"),
        ("memory_total_mib", "24564"),
        ("utilization_percentage", "0")]).utilization_percentage =
      extractField [("temperature_c", "21"), ("power_usage_w", "12"),
        ("power_cap_w", "230"), ("memory_used_mib", "207"),
        ("memory_total_mib", "24564"),
        ("utilization_percentage", "0")] "utilization_percentage" ∧
    (∀ key v n, lookupField [("temperature_c", "21"), ("power_usage_w", "12"),
        ("power_cap_w", "230"), ("memory_used_mib", "207"),
        ("memory_total_mib", "24564"),
        ("utilization_percentage", "0")] key = some v →
      parseNum v = some n →
      extractField [("temperature_c", "21"), ("power_usage_w", "12"),
        ("power_cap_w", "230"), ("memory_used_mib", "207"),
        ("memory_total_mib", "24564"),
        ("utilization_percentage", "0")] key = (n : Int)) ∧
    (parseSnapshot "2025-03-01 04:18:24" [[("temperature_c", "21"),
        ("power_usage_w", "12"), ("power_cap_w", "230"),
        ("memory_used_mib", "207"), ("memory_total_mib", "24564"),
        ("utilization_percentage", "0")]]).gpus =
      [parseDevice 0 [("temperature_c", "21"), ("power_usage_w", "12"),
        ("power_cap_w", "230"), ("memory_used_mib", "207"),
        ("memory_total_mib", "24564"), ("utilization_percentage", "0")]] ∧
    appendSnap [] (parseSnapshot "2025-03-01 04:18:24" [[("temperature_c", "21"),
        ("power_usage_w", "12"), ("power_cap_w", "230"),
        ("memory_used_mib", "207"), ("memory_total_mib", "24564"),
        ("utilization_percentage", "0")]]) =
      [] ++ [parseSnapshot "2025-03-01 04:18:24" [[("temperature_c", "21"),
        ("power_usage_w", "12"), ("power_cap_w", "230"),
        ("memory_used_mib", "207"), ("memory_total_mib", "24564"),
        ("utilization_percentage", "0")]]] :=
  field_sentinel [("temperature_c", "21"), ("power_usage_w", "12"),
      ("power_cap_w", "230"), ("memory_used_mib", "207"),
      ("memory_total_mib", "24564"), ("utilization_percentage", "0")]
    "2025-03-01 04:18:24" [] 0 (Or.inl rfl)

/-- C8 counterexample: the memory invariant `0 ≤ used ≤ total` does not
hold of every DeviceReading held in a Series.  A Series built by the
system's own parse-and-append path from a record missing
`memory_used_mib` holds a reading with `memory_used_mib = sentinel = -1`,
and from a record reporting more memory used than total it holds a
reading with `used > total` — nothing validates or rejects either. -/
theorem memory_invariant_counterexample :
    (∃ snap ∈ appendSnap [] (parseSnapshot "2025-03-01 04:18:24"
        [[("fan_percentage", "30"), ("temperature_c", "21"),
          ("power_usage_w", "12"), ("power_cap_w", "230"),
          ("memory_total_mib", "24564"), ("utilization_percentage", "0")],
         [("fan_percentage", "30"), ("temperature_c", "20"),
          ("power_usage_w", "6"), ("power_cap_w", "230"),
          ("memory_used_mib", "999999"), ("memory_total_mib", "100"),
          ("utilization_percentage", "0")]]),
      ∃ d ∈ snap.gpus, ¬ 0 ≤ d.memory_used_mib) ∧
    (∃ snap ∈ appendSnap [] (parseSnapshot "2025-03-01 04:18:24"
        [[("fan_percentage", "30"), ("temperature_c", "21"),
          ("power_usage_w", "12"), ("power_cap_w", "230"),
          ("memory_total_mib", "24564"), ("utilization_percentage", "0")],
         [("fan_percentage", "30"), ("temperature_c", "20"),
          ("power_usage_w", "6"), ("power_cap_w", "230"),
          ("memory_used_mib", "999999"), ("memory_total_mib", "100"),
          ("utilization_percentage", "0")]]),
      ∃ d ∈ snap.gpus, ¬ d.memory_used_mib ≤ d.memory_total_mib) := by
  decide

/-- C8 amended: the store accepts readings as reported, with no
validation.  Append stores every Snapshot verbatim; the README's example
reading with `memory_used_mib = 207` and `memory_total_mib = 24564` parses
to exactly those values; and every extracted field is either its real
nonnegative parsed value or the sentinel `-1` — so `0 ≤ used ≤ total`
holds exactly when the raw record reports both memory fields as numbers
with `used ≤ total`, and is not enforced by any operation. -/
theorem memory_invariant_amended (S : Series) (s : Snapshot)
    (rec : List (String × String)) (key : String) :
    appendSnap S s = S ++ [s] ∧
    (parseDevice 0 [("fan_percentage", "30"), ("temperature_c", "21"),
        ("power_usage_w", "12"), ("power_cap_w", "230"),
        ("memory_used_mib", "207"), ("memory_total_mib", "24564"),
        ("utilization_percentage", "0")]).memory_used_mib = 207 ∧
    (parseDevice 0 [("fan_percentage", "30"), ("temperature_c", "21"),
        ("power_usage_w", "12"), ("power_cap_w", "230"),
        ("memory_used_mib", "207"), ("memory_total_mib", "24564"),
        ("utilization_percentage", "0")]).memory_total_mib = 24564 ∧
    (extractField rec key = sentinel ∨ 0 ≤ extractField rec key) := by
  refine ⟨rfl, by decide, by decide, ?_⟩
  rcases hv : lookupField rec key with _ | v
  · exact Or.inl (by simp [extractField, hv])
  · rcases hn : parseNum v with _ | n
    · exact Or.inl (by simp [extractField, hv, hn])
    · refine Or.inr ?_
      simp [extractField, hv, hn]

/-- C9: when the `nvidia-smi` collector tool is unavailable at startup,
the bootstrap exits with status 1 having performed no action — in
particular the monitor is never launched, so no monitoring begins; and that
startup check is the only thing that stops a run, since the loop's tick
schedule (and hence its running to the deadline) is entirely independent
of collector failures mid-run. -/
theorem collector_unavailable_fatal (env : SysEnv) (I D : Nat)
    (proc : Nat → Nat) (c1 c2 : Nat → Option Snapshot)
    (h : env.nvidia_smi_available = false) :
    (start_monitoring env).1 = 1 ∧ (start_monitoring env).2 = [] ∧
    Action.launch_monitor ∉ (start_monitoring env).2 ∧
    (runMonitor I D proc c1).map Prod.fst =
      (runMonitor I D proc c2).map Prod.fst := by
  refine ⟨?_, ?_, ?_, monitorAux_fst_independent I D proc c1 c2 (D + 1) 0 0⟩
  · simp [start_monitoring, h]
  · simp [start_monitoring, h]
  · simp [start_monitoring, h]

/-- Witness for C9: `nvidia-smi` absent with `python3` present, and a run
of one tick whose collectors disagree everywhere. -/
theorem collector_unavailable_fatal_witness :
    (start_monitoring ⟨false, true⟩).1 = 1 ∧
    (start_monitoring ⟨false, true⟩).2 = [] ∧
    Action.launch_monitor ∉ (start_monitoring ⟨false, true⟩).2 ∧
    (runMonitor 1 1 (fun _ => 0) (fun _ => none)).map Prod.fst =
      (runMonitor 1 1 (fun _ => 0) (fun _ => some ⟨"s", []⟩)).map Prod.fst :=
  collector_unavailable_fatal ⟨false, true⟩ 1 1 (fun _ => 0)
    (fun _ => none) (fun _ => some ⟨"s", []⟩) rfl

/-- C10: whenever `nvidia-smi` or `python3` is absent, the bootstrap
script exits with status 1 before performing any state-changing action —
no dependency installation, no chmod, no monitor launch (empty action
trace). -/
theorem bootstrap_prereq_no_side_effects (env : SysEnv)
    (h : env.nvidia_smi_available = false ∨ env.python3_available = false) :
    start_monitoring env = (1, []) := by
  rcases h with h | h
  · simp [start_monitoring, h]
  · cases h2 : env.nvidia_smi_available
    · simp [start_monitoring, h2]
    · simp [start_monitoring, h2, h]

/-- Witness for C10: `python3` absent while `nvidia-smi` is present. -/
theorem bootstrap_prereq_no_side_effects_witness :
    start_monitoring ⟨true, false⟩ = (1, []) :=
  bootstrap_prereq_no_side_effects ⟨true, false⟩ (Or.inr rfl)

end GpuMon
